import Mathlib

/-!
Shallow embedding of the request-handling core of the `brick` chat application:
the three route modules `src/app/api/chat/route.ts` (create chat / list chats),
`src/app/api/chat/messages/route.ts` (create message / list messages) and
`src/app/api/chat/aiResponse/route.ts` (streaming completion), over the data
model of `prisma/schema.prisma`.

External collaborators (the Upstash rate limiter and Redis cache, the Prisma
store, the auth provider, the generation backend) are not part of the
repository; where their behaviour decides a property they are modelled from
the spec, and each such definition says so in its doc comment.  Timestamps are
`Nat`.  Each route handler is a function from its inputs, an environment
describing the collaborators' behaviour for this request, and the shared state
to a response outcome and the new shared state; a collaborator call that fails
makes the handler take the route's catch-all branch, which returns the 500
server-fault response tagged with the route name, exactly as in the source.
-/

/-- The `Role` enumeration of `prisma/schema.prisma`. -/
inductive Role
  | USER
  | ASSISTANT
  | SYSTEM
  deriving DecidableEq, Repr

/-- A row of the `Chat` model of `prisma/schema.prisma` (the fields the routes
touch). -/
structure Chat where
  id : String
  userId : String
  title : Option String
  createdAt : Nat
  deriving DecidableEq, Repr

/-- A row of the `Message` model of `prisma/schema.prisma`. -/
structure Message where
  id : String
  content : String
  role : Role
  createdAt : Nat
  chatId : String
  userId : Option String
  deriving DecidableEq, Repr

/-- Modelled from the spec: the authoritative store collaborator holds the rows
of the two collections; `create` adds a row, `findMany` filters and sorts per
the `orderBy` argument given at the route call sites. -/
structure Db where
  chats : List Chat
  messages : List Message
  deriving DecidableEq, Repr

/-- A cache entry: the deserialized snapshot plus its expiration instant.
Modelled from the spec: the Redis collaborator stores `JSON.stringify` of the
rows under `ex: ttl`; the `JSON.stringify` / `JSON.parse` round trip of the
external JSON collaborator is modelled as exact, so the entry holds the rows
themselves. -/
structure CEntry (α : Type) where
  rows : α
  expiresAt : Nat
  deriving DecidableEq, Repr

/-- Modelled from the spec: `redis.get` returns the stored value unless the key
is absent or its TTL has elapsed (an expired key is equivalent to absence). -/
def cacheGet {α : Type} (c : List (String × CEntry α)) (k : String) (now : Nat) :
    Option α :=
  match c.find? (fun e => e.1 == k) with
  | some e => if now < e.2.expiresAt then some e.2.rows else none
  | none => none

/-- Modelled from the spec: `redis.set key value ex:ttl` replaces any entry at
the key and arms its expiry `ttl` time units from now. -/
def cacheSet {α : Type} (c : List (String × CEntry α)) (k : String) (v : α)
    (ttl now : Nat) : List (String × CEntry α) :=
  (k, ⟨v, now + ttl⟩) :: c.filter (fun e => !(e.1 == k))

/-- Modelled from the spec: `redis.del key` removes the entry at the key. -/
def cacheDel {α : Type} (c : List (String × CEntry α)) (k : String) :
    List (String × CEntry α) :=
  c.filter (fun e => !(e.1 == k))

/-- The decision record returned by the rate limiter's `limit` call:
`{ success, limit, reset, remaining }`. -/
structure Decision where
  success : Bool
  limit : Nat
  remaining : Nat
  reset : Nat
  deriving DecidableEq, Repr

/-- A hit timestamp `t` counts against a request at `now` iff it falls in the
trailing window `[now - w, now]`. -/
def inWindow (w now t : Nat) : Bool := now ≤ t + w && t ≤ now

/-- Modelled from the spec: the sliding-window admission decision of the
`@upstash/ratelimit` collaborator (a dependency, not under `src/`), configured
at the route call sites as `Ratelimit.slidingWindow(n, "10 s")`.  Per spec
§4.1 the decision counts requests whose timestamp falls within `[now - W, now]`
against the budget; the hit is recorded either way, `remaining` is the budget
left after this request (0 on rejection), and `reset` is when the current
window ends.  The limiter is keyed by the caller's `x-forwarded-for` value
(falling back to a shared `"anonymous"` key); the state here is one client
key's window, which is the per-key semantics. -/
def slidingWindowAdmit (limitN w : Nat) (hits : List Nat) (now : Nat) :
    Decision × List Nat :=
  let count := (hits.filter (inWindow w now)).length
  ({ success := decide (count < limitN), limit := limitN,
     remaining := limitN - (count + 1), reset := now + w }, now :: hits)

/-- The shared mutable state the routes act on: the authoritative store, the
two disjoint Redis key namespaces (`user:chats:*` and `user:messages:*` never
collide, so they are kept as two maps), the write-class and read-class rate
windows of the client under consideration, and a fresh-id counter standing for
cuid generation. -/
structure St where
  db : Db
  chatsCache : List (String × CEntry (List Chat))
  messagesCache : List (String × CEntry (List Message))
  rateW : List Nat
  rateR : List Nat
  nextId : Nat
  deriving DecidableEq, Repr

/-- Per-request behaviour of the external collaborators: whether the rate
limiter's backing store is reachable, what the auth provider resolves
(`some userId` or nothing), and whether each Redis data call succeeds.  A
`false` flag means the corresponding awaited call rejects, which the route's
`try`/`catch` turns into the 500 server-fault response. -/
structure Env where
  ratelimitOk : Bool
  session : Option String
  redisGetOk : Bool
  redisSetOk : Bool
  redisDelOk : Bool
  deriving DecidableEq, Repr

/-- The response outcomes a route can produce: the 429 rate-limit rejection
carrying `limit`/`remaining`/`reset`, the 401, the explicit 400s, the success
payload, and the catch-all 500 tagged with the route name. -/
inductive Outcome (α : Type)
  | rateLimited (limit remaining reset : Nat)
  | unauthorized
  | badRequest (msg : String)
  | ok (payload : α)
  | serverFault (tag : String)
  deriving DecidableEq, Repr

/-- Fresh identifier for a created row (stands for cuid generation). -/
def genId (n : Nat) : String := "id" ++ toString n

/-- The chats cache key of `chat/route.ts`: `user:chats:${userId}`. -/
def chatsCacheKey (userId : String) : String := "user:chats:" ++ userId

/-- The messages cache key of `chat/messages/route.ts`:
`user:messages:${userId}:chat:${chatId}`. -/
def messagesCacheKey (userId chatId : String) : String :=
  "user:messages:" ++ userId ++ ":chat:" ++ chatId

/-- The `where: { userId }` filter of the `db.chat.findMany` call. -/
def chatOwnedBy (userId : String) (c : Chat) : Bool := c.userId == userId

/-- The `where: { chatId }` filter of the `db.message.findMany` call. -/
def msgInChat (chatId : String) (m : Message) : Bool := m.chatId == chatId

/-- The `orderBy: { createdAt: "desc" }` order of the chats query. -/
def chatGe (a b : Chat) : Prop := b.createdAt ≤ a.createdAt

instance : DecidableRel chatGe :=
  fun a b => inferInstanceAs (Decidable (b.createdAt ≤ a.createdAt))

instance : IsTotal Chat chatGe := ⟨fun a b => Nat.le_total b.createdAt a.createdAt⟩

instance : IsTrans Chat chatGe := ⟨fun _ _ _ h1 h2 => Nat.le_trans h2 h1⟩

/-- The `orderBy: { createdAt: "asc" }` order of the messages query. -/
def msgLe (a b : Message) : Prop := a.createdAt ≤ b.createdAt

/-- Strict creation-time order on messages (used to show the ascending order
is unique when timestamps are distinct). -/
def msgLt (a b : Message) : Prop := a.createdAt < b.createdAt

instance : IsAntisymm Message msgLt :=
  ⟨fun _ _ h1 h2 => absurd h1 (Nat.lt_asymm h2)⟩

instance : DecidableRel msgLe :=
  fun a b => inferInstanceAs (Decidable (a.createdAt ≤ b.createdAt))

instance : IsTotal Message msgLe := ⟨fun a b => Nat.le_total a.createdAt b.createdAt⟩

instance : IsTrans Message msgLe := ⟨fun _ _ _ h1 h2 => Nat.le_trans h1 h2⟩

/-- `db.chat.findMany({where:{userId}, orderBy:{createdAt:"desc"}})` sorted
per the store collaborator's contract. -/
def sortChatsDesc (l : List Chat) : List Chat := List.insertionSort chatGe l

/-- `db.message.findMany({where:{chatId}, orderBy:{createdAt:"asc"}})` sorted
per the store collaborator's contract. -/
def sortMessagesAsc (l : List Message) : List Message := List.insertionSort msgLe l

/-- `POST /api/chat` (`chat/route.ts`): rate limit (write class, 10 per 10 s),
auth, parse `{message?}`, reject a missing or empty message with a 400, create
the chat (title "New Chat"), delete the owner's chats cache key, create the
first USER message, and acknowledge with the chat id.  The `body` argument is
the parsed optional `message` field. -/
def chatPOST (env : Env) (body : Option String) (now : Nat) (st : St) :
    Outcome String × St :=
  if !env.ratelimitOk then (.serverFault "CHAT_POST", st) else
  let r := slidingWindowAdmit 10 10 st.rateW now
  let st1 : St := { st with rateW := r.2 }
  if !r.1.success then (.rateLimited r.1.limit r.1.remaining r.1.reset, st1) else
  match env.session with
  | none => (.unauthorized, st1)
  | some uid =>
    match body with
    | none => (.badRequest "Missing message", st1)
    | some message =>
      if message == "" then (.badRequest "Missing message", st1) else
      let chat : Chat :=
        { id := genId st1.nextId, userId := uid, title := some "New Chat",
          createdAt := now }
      let st2 : St :=
        { st1 with db := { st1.db with chats := chat :: st1.db.chats },
                   nextId := st1.nextId + 1 }
      if !env.redisDelOk then (.serverFault "CHAT_POST", st2) else
      let st3 : St :=
        { st2 with chatsCache := cacheDel st2.chatsCache (chatsCacheKey uid) }
      let firstMessage : Message :=
        { id := genId st3.nextId, content := message, role := .USER,
          createdAt := now, chatId := chat.id, userId := some uid }
      let st4 : St :=
        { st3 with db := { st3.db with messages := firstMessage :: st3.db.messages },
                   nextId := st3.nextId + 1 }
      (.ok chat.id, st4)

/-- `GET /api/chat` (`chat/route.ts`): rate limit (read class, 30 per 10 s),
auth, look up the owner's chats cache key; on a hit return the cached rows with
`cached: true`, otherwise query the store (owner's chats, creation time
descending), populate the cache with `ex: 300`, and return the rows with
`cached: false`. -/
def chatGET (env : Env) (now : Nat) (st : St) :
    Outcome (List Chat × Bool) × St :=
  if !env.ratelimitOk then (.serverFault "CHAT_GET", st) else
  let r := slidingWindowAdmit 30 10 st.rateR now
  let st1 : St := { st with rateR := r.2 }
  if !r.1.success then (.rateLimited r.1.limit r.1.remaining r.1.reset, st1) else
  match env.session with
  | none => (.unauthorized, st1)
  | some uid =>
    if !env.redisGetOk then (.serverFault "CHAT_GET", st1) else
    match cacheGet st1.chatsCache (chatsCacheKey uid) now with
    | some rows => (.ok (rows, true), st1)
    | none =>
      let rows := sortChatsDesc (st1.db.chats.filter (chatOwnedBy uid))
      if !env.redisSetOk then (.serverFault "CHAT_GET", st1) else
      (.ok (rows, false),
       { st1 with
         chatsCache := cacheSet st1.chatsCache (chatsCacheKey uid) rows 300 now })

/-- The raw body of `POST /api/chat/messages` before zod validation: the
`role` field is an arbitrary string. -/
structure MessageBody where
  chatId : String
  content : String
  role : String
  deriving DecidableEq, Repr

/-- The `z.enum(["USER", "ASSISTANT", "SYSTEM"])` membership check of
`bodySchema` in `chat/messages/route.ts`; `none` means `bodySchema.parse`
throws a `ZodError`. -/
def parseRole : String → Option Role
  | "USER" => some .USER
  | "ASSISTANT" => some .ASSISTANT
  | "SYSTEM" => some .SYSTEM
  | _ => none

/-- `POST /api/chat/messages` (`chat/messages/route.ts`): rate limit (write
class, 10 per 10 s), auth, `bodySchema.parse` (a role outside the enumeration
throws, landing in the catch-all 500), create the message row, delete the
owner's per-chat messages cache key, and acknowledge with the message. -/
def messagesPOST (env : Env) (body : MessageBody) (now : Nat) (st : St) :
    Outcome Message × St :=
  if !env.ratelimitOk then (.serverFault "MESSAGES_POST", st) else
  let r := slidingWindowAdmit 10 10 st.rateW now
  let st1 : St := { st with rateW := r.2 }
  if !r.1.success then (.rateLimited r.1.limit r.1.remaining r.1.reset, st1) else
  match env.session with
  | none => (.unauthorized, st1)
  | some uid =>
    match parseRole body.role with
    | none => (.serverFault "MESSAGES_POST", st1)
    | some role =>
      let msg : Message :=
        { id := genId st1.nextId, content := body.content, role := role,
          createdAt := now, chatId := body.chatId, userId := some uid }
      let st2 : St :=
        { st1 with db := { st1.db with messages := msg :: st1.db.messages },
                   nextId := st1.nextId + 1 }
      if !env.redisDelOk then (.serverFault "MESSAGES_POST", st2) else
      let st3 : St :=
        { st2 with
          messagesCache := cacheDel st2.messagesCache (messagesCacheKey uid body.chatId) }
      (.ok msg, st3)

/-- `GET /api/chat/messages` (`chat/messages/route.ts`): rate limit (read
class, 30 per 10 s), auth, 400 on a missing `chatId` query parameter, look up
the per-chat messages cache key; on a hit return the cached rows with
`cached: true`, otherwise query the store (`where: { chatId }` only, creation
time ascending), populate the cache with `ex: 300`, and return the rows with
`cached: false`. -/
def messagesGET (env : Env) (chatIdParam : Option String) (now : Nat) (st : St) :
    Outcome (List Message × Bool) × St :=
  if !env.ratelimitOk then (.serverFault "MESSAGES_GET", st) else
  let r := slidingWindowAdmit 30 10 st.rateR now
  let st1 : St := { st with rateR := r.2 }
  if !r.1.success then (.rateLimited r.1.limit r.1.remaining r.1.reset, st1) else
  match env.session with
  | none => (.unauthorized, st1)
  | some uid =>
    match chatIdParam with
    | none => (.badRequest "Missing chatId", st1)
    | some chatId =>
      if !env.redisGetOk then (.serverFault "MESSAGES_GET", st1) else
      match cacheGet st1.messagesCache (messagesCacheKey uid chatId) now with
      | some rows => (.ok (rows, true), st1)
      | none =>
        let rows := sortMessagesAsc (st1.db.messages.filter (msgInChat chatId))
        if !env.redisSetOk then (.serverFault "MESSAGES_GET", st1) else
        (.ok (rows, false),
         { st1 with
           messagesCache :=
             cacheSet st1.messagesCache (messagesCacheKey uid chatId) rows 300 now })

/-- The parsed body of `POST /api/chat/aiResponse`. -/
structure AiBody where
  chatId : String
  content : String
  deriving DecidableEq, Repr

/-- `POST /api/chat/aiResponse` (`chat/aiResponse/route.ts`): rate limit
(write class, 10 per 10 s), auth, then `streamText`.  The generation backend
is a collaborator modelled from the spec: it yields `fragments` to the stream
consumer (the success payload is exactly the forwarded fragment list) and
calls `onFinish` with the accumulated text.  The `onFinish` body is from the
source: when the text is non-empty it persists one ASSISTANT message with the
full text directly via `db.message.create` — note that it performs no cache
deletion.  The detached task is modelled as completing before the function
returns; its ordering relative to the response does not affect the properties
stated below, since no later step of this handler touches the state. -/
def aiResponsePOST (env : Env) (body : AiBody) (fragments : List String)
    (now : Nat) (st : St) : Outcome (List String) × St :=
  if !env.ratelimitOk then (.serverFault "AI_RESPONSE_POST", st) else
  let r := slidingWindowAdmit 10 10 st.rateW now
  let st1 : St := { st with rateW := r.2 }
  if !r.1.success then (.rateLimited r.1.limit r.1.remaining r.1.reset, st1) else
  match env.session with
  | none => (.unauthorized, st1)
  | some uid =>
    let fullText := String.join fragments
    if fullText == "" then (.ok fragments, st1) else
    let msg : Message :=
      { id := genId st1.nextId, content := fullText, role := .ASSISTANT,
        createdAt := now, chatId := body.chatId, userId := some uid }
    let st2 : St :=
      { st1 with db := { st1.db with messages := msg :: st1.db.messages },
                 nextId := st1.nextId + 1 }
    (.ok fragments, st2)

/-- Sequential processing of one client key's requests through the limiter:
the list of decisions, and the window state left behind. -/
def admitSeq (limitN w : Nat) : List Nat → List Nat → List Decision × List Nat
  | hits, [] => ([], hits)
  | hits, t :: ts =>
    let r := slidingWindowAdmit limitN w hits t
    let rest := admitSeq limitN w r.2 ts
    (r.1 :: rest.1, rest.2)

/-- Every decision in the list is an admission. -/
def allSuccess (ds : List Decision) : Bool := ds.all (fun d => d.success)

/-- An environment in which every collaborator behaves, authenticated as user
`u1`. -/
def envOK : Env :=
  { ratelimitOk := true, session := some "u1", redisGetOk := true,
    redisSetOk := true, redisDelOk := true }

/-- As `envOK` but authenticated as a different user `u2`. -/
def envU2 : Env := { envOK with session := some "u2" }

/-- As `envOK` but the `redis.get` call rejects. -/
def envNoGet : Env := { envOK with redisGetOk := false }

/-- As `envOK` but the `redis.set` call rejects. -/
def envNoSet : Env := { envOK with redisSetOk := false }

/-- As `envOK` but the rate limiter's backing store is unreachable. -/
def envNoLimiter : Env := { envOK with ratelimitOk := false }

/-- The empty shared state. -/
def st0 : St :=
  { db := { chats := [], messages := [] }, chatsCache := [], messagesCache := [],
    rateW := [], rateR := [], nextId := 0 }

/-- A chat of user `u1`, created at time 0. -/
def chatW1 : Chat := { id := "c1", userId := "u1", title := none, createdAt := 0 }

/-- A second chat of user `u1`, created at time 5. -/
def chatW2 : Chat := { id := "c2", userId := "u1", title := none, createdAt := 5 }

/-- Messages of chat `c1` created at times 1, 2 and 3. -/
def mW1 : Message :=
  { id := "m1", content := "a", role := .USER, createdAt := 1, chatId := "c1",
    userId := some "u1" }

/-- Second sample message (time 2). -/
def mW2 : Message :=
  { id := "m2", content := "b", role := .ASSISTANT, createdAt := 2, chatId := "c1",
    userId := none }

/-- Third sample message (time 3). -/
def mW3 : Message :=
  { id := "m3", content := "c", role := .USER, createdAt := 3, chatId := "c1",
    userId := some "u1" }

/-- A populated state: two chats of `u1` and the three messages of `c1` stored
in scrambled insertion order; both caches empty. -/
def stW : St :=
  { db := { chats := [chatW1, chatW2], messages := [mW2, mW3, mW1] },
    chatsCache := [], messagesCache := [], rateW := [], rateR := [], nextId := 7 }

/-- A state holding one chat `c1` of `u1` with its single message `mW1`. -/
def stC2 : St :=
  { db := { chats := [chatW1], messages := [mW1] }, chatsCache := [],
    messagesCache := [], rateW := [], rateR := [], nextId := 0 }

/-- The assistant message the completion pipeline persists in the `stC2`
scenario (accumulated text "Hi", finish time 2). -/
def aMsgC2 : Message :=
  { id := genId 0, content := "Hi", role := .ASSISTANT, createdAt := 2,
    chatId := "c1", userId := some "u1" }

/-- Ten write-class request timestamps, one per time unit. -/
def tenTs : List Nat := [0, 1, 2, 3, 4, 5, 6, 7, 8, 9]

/-- The window state after the ten admissions of `tenTs` from a fresh key. -/
def stRateFull : St := { st0 with rateW := (admitSeq 10 10 [] tenTs).2 }

/-- Deleting a key leaves nothing to read under it. -/
theorem cacheGet_cacheDel {α : Type} (c : List (String × CEntry α)) (k : String)
    (now : Nat) : cacheGet (cacheDel c k) k now = none := by
  unfold cacheGet cacheDel
  have hf : (c.filter (fun e => !(e.1 == k))).find? (fun e => e.1 == k) = none := by
    rw [List.find?_eq_none]
    intro e he
    have hm := (List.mem_filter.1 he).2
    simp only [Bool.not_eq_true'] at hm
    simp [hm]
  rw [hf]

/-- A freshly set key reads back its value while the TTL has not elapsed. -/
theorem cacheGet_cacheSet_self {α : Type} (c : List (String × CEntry α))
    (k : String) (v : α) (ttl now now2 : Nat) (h : now2 < now + ttl) :
    cacheGet (cacheSet c k v ttl now) k now2 = some v := by
  unfold cacheGet cacheSet
  simp [List.find?_cons, h]

/-- The limiter records every request: the window state after a burst is the
reversed burst prepended to the old state. -/
theorem admitSeq_snd (limitN w : Nat) (ts hits : List Nat) :
    (admitSeq limitN w hits ts).2 = ts.reverse ++ hits := by
  induction ts generalizing hits with
  | nil => simp [admitSeq]
  | cons t ts ih => simp [admitSeq, slidingWindowAdmit, ih]

/-- Any burst of at most ten requests is fully admitted when the window budget
not already consumed: `newh` are the hits of the burst so far, `old` are hits
that fall outside the window of every remaining request. -/
theorem admitSeq_all_success (w : Nat) (ts newh old : List Nat)
    (hlen : newh.length + ts.length ≤ 10)
    (hold : ∀ h ∈ old, ∀ t ∈ ts, inWindow w t h = false) :
    allSuccess (admitSeq 10 w (newh ++ old) ts).1 = true := by
  induction ts generalizing newh with
  | nil => simp [admitSeq, allSuccess]
  | cons t ts ih =>
    have hcount : ((newh ++ old).filter (inWindow w t)).length < 10 := by
      rw [List.filter_append]
      have h1 : old.filter (inWindow w t) = [] := by
        rw [List.filter_eq_nil_iff]
        intro a ha
        simp [hold a ha t (by simp)]
      have h2 : (newh.filter (inWindow w t)).length ≤ newh.length :=
        List.length_filter_le _ _
      rw [h1]
      simp only [List.length_append, List.length_nil]
      simp only [List.length_cons] at hlen
      omega
    have ihh := ih (t :: newh)
      (by simp only [List.length_cons] at hlen ⊢; omega)
      (fun h hh t2 ht2 => hold h hh t2 (by simp [ht2]))
    simp only [admitSeq, allSuccess, slidingWindowAdmit, List.all_cons] at ihh ⊢
    simp only [List.cons_append] at ihh
    simp [hcount, ihh]
    rw [← List.length_append, ← List.filter_append]
    exact hcount

/-- When the rows of a chat are exactly three messages with strictly increasing
creation timestamps, the ascending sort returns them in exactly that order,
whatever order they were inserted in. -/
theorem sortMessagesAsc_three (l : List Message) (m1 m2 m3 : Message)
    (hperm : l.Perm [m1, m2, m3])
    (h12 : m1.createdAt < m2.createdAt) (h23 : m2.createdAt < m3.createdAt) :
    sortMessagesAsc l = [m1, m2, m3] := by
  have hps : (sortMessagesAsc l).Perm [m1, m2, m3] :=
    (List.perm_insertionSort msgLe l).trans hperm
  have hs : List.Sorted msgLe (sortMessagesAsc l) :=
    List.sorted_insertionSort msgLe l
  have hne3 : List.Pairwise (fun a b : Message => a.createdAt ≠ b.createdAt)
      [m1, m2, m3] := by
    refine List.Pairwise.cons (fun b hb => ?_)
      (List.Pairwise.cons (fun b hb => ?_) (List.pairwise_singleton _ _))
    · simp only [List.mem_cons, List.mem_singleton, List.not_mem_nil,
        or_false] at hb
      rcases hb with rfl | rfl <;> omega
    · simp only [List.mem_singleton, List.mem_cons, List.not_mem_nil,
        or_false] at hb
      subst hb
      omega
  have hne : List.Pairwise (fun a b : Message => a.createdAt ≠ b.createdAt)
      (sortMessagesAsc l) :=
    (List.Perm.pairwise_iff (fun {_ _} h => Ne.symm h) hps).2 hne3
  have hlt : List.Sorted msgLt (sortMessagesAsc l) := by
    have hand := List.Pairwise.and hs hne
    exact hand.imp (fun hab => Nat.lt_of_le_of_ne hab.1 hab.2)
  have hlt3 : List.Sorted msgLt [m1, m2, m3] := by
    refine List.Pairwise.cons (fun b hb => ?_)
      (List.Pairwise.cons (fun b hb => ?_) (List.pairwise_singleton _ _))
    · simp only [List.mem_cons, List.mem_singleton, List.not_mem_nil,
        or_false] at hb
      rcases hb with rfl | rfl
      · exact h12
      · exact Nat.lt_trans h12 h23
    · simp only [List.mem_singleton, List.mem_cons, List.not_mem_nil,
        or_false] at hb
      subst hb
      exact h23
  exact List.eq_of_perm_of_sorted hps hlt hlt3

/-- C1: for every create operation, the cache entry whose key could contain
the written resource — the owner's chats key for CreateChat, the owner's
per-chat messages key for CreateMessage — is deleted before the success
response is returned, so a list issued after the create is acknowledged misses
the cache and returns a fresh store read containing the created resource,
never the pre-create snapshot. -/
theorem create_invalidates_before_ack
    (env env2 : Env) (m : String) (now now2 : Nat) (st : St) (uid : String)
    (hrl : env.ratelimitOk = true)
    (hadm : (slidingWindowAdmit 10 10 st.rateW now).1.success = true)
    (hsess : env.session = some uid)
    (hm : (m == "") = false)
    (hdel : env.redisDelOk = true)
    (hrl2 : env2.ratelimitOk = true)
    (hadm2 : (slidingWindowAdmit 30 10 ((chatPOST env (some m) now st).2).rateR
        now2).1.success = true)
    (hsess2 : env2.session = some uid)
    (hget2 : env2.redisGetOk = true)
    (hset2 : env2.redisSetOk = true)
    (env3 env4 : Env) (mb : MessageBody) (now3 now4 : Nat) (st3 : St)
    (uid3 : String) (role3 : Role)
    (hrl3 : env3.ratelimitOk = true)
    (hadm3 : (slidingWindowAdmit 10 10 st3.rateW now3).1.success = true)
    (hsess3 : env3.session = some uid3)
    (hrole3 : parseRole mb.role = some role3)
    (hdel3 : env3.redisDelOk = true)
    (hrl4 : env4.ratelimitOk = true)
    (hadm4 : (slidingWindowAdmit 30 10 ((messagesPOST env3 mb now3 st3).2).rateR
        now4).1.success = true)
    (hsess4 : env4.session = some uid3)
    (hget4 : env4.redisGetOk = true)
    (hset4 : env4.redisSetOk = true) :
    ((chatPOST env (some m) now st).1 = Outcome.ok (genId st.nextId)
      ∧ cacheGet ((chatPOST env (some m) now st).2).chatsCache
          (chatsCacheKey uid) now2 = none
      ∧ (chatGET env2 now2 ((chatPOST env (some m) now st).2)).1
          = Outcome.ok
              (sortChatsDesc
                ((((chatPOST env (some m) now st).2).db.chats).filter
                  (chatOwnedBy uid)), false)
      ∧ ({ id := genId st.nextId, userId := uid, title := some "New Chat",
           createdAt := now } : Chat)
          ∈ sortChatsDesc
              ((((chatPOST env (some m) now st).2).db.chats).filter
                (chatOwnedBy uid)))
    ∧ ((messagesPOST env3 mb now3 st3).1
          = Outcome.ok
              { id := genId st3.nextId, content := mb.content, role := role3,
                createdAt := now3, chatId := mb.chatId, userId := some uid3 }
      ∧ cacheGet ((messagesPOST env3 mb now3 st3).2).messagesCache
          (messagesCacheKey uid3 mb.chatId) now4 = none
      ∧ (messagesGET env4 (some mb.chatId) now4
            ((messagesPOST env3 mb now3 st3).2)).1
          = Outcome.ok
              (sortMessagesAsc
                ((((messagesPOST env3 mb now3 st3).2).db.messages).filter
                  (msgInChat mb.chatId)), false)
      ∧ ({ id := genId st3.nextId, content := mb.content, role := role3,
           createdAt := now3, chatId := mb.chatId, userId := some uid3 } : Message)
          ∈ sortMessagesAsc
              ((((messagesPOST env3 mb now3 st3).2).db.messages).filter
                (msgInChat mb.chatId))) := by
  simp only [chatPOST, messagesPOST, hrl, hadm, hsess, hm, hdel, hrl3, hadm3,
    hsess3, hrole3, hdel3, Bool.not_true, Bool.if_false_left, if_false,
    Bool.not_false, if_true, Bool.false_eq_true, ite_false, ite_true] at hadm2 hadm4 ⊢
  refine ⟨⟨trivial, cacheGet_cacheDel _ _ _, ?_, ?_⟩, trivial,
    cacheGet_cacheDel _ _ _, ?_, ?_⟩
  · simp [chatGET, hrl2, hadm2, hsess2, hget2, hset2, cacheGet_cacheDel]
  · simp [sortChatsDesc, chatOwnedBy]
  · simp [messagesGET, hrl4, hadm4, hsess4, hget4, hset4, cacheGet_cacheDel]
  · simp [sortMessagesAsc, msgInChat]

/-- C1 witness: at a concrete input — user `u1` creates a chat from the empty
state, and creates a message in `c1` from `stC2` — the acknowledged create has
emptied the corresponding cache key and the follow-up list is a fresh read. -/
theorem create_invalidates_before_ack_witness :
    cacheGet ((chatPOST envOK (some "hi") 0 st0).2).chatsCache
        (chatsCacheKey "u1") 1 = none
    ∧ (chatGET envOK 1 ((chatPOST envOK (some "hi") 0 st0).2)).1
        = Outcome.ok
            (sortChatsDesc
              ((((chatPOST envOK (some "hi") 0 st0).2).db.chats).filter
                (chatOwnedBy "u1")), false)
    ∧ cacheGet ((messagesPOST envOK ⟨"c1", "x", "USER"⟩ 0 stC2).2).messagesCache
        (messagesCacheKey "u1" "c1") 1 = none
    ∧ (messagesGET envOK (some "c1") 1
          ((messagesPOST envOK ⟨"c1", "x", "USER"⟩ 0 stC2).2)).1
        = Outcome.ok
            (sortMessagesAsc
              ((((messagesPOST envOK ⟨"c1", "x", "USER"⟩ 0 stC2).2).db.messages).filter
                (msgInChat "c1")), false) :=
  have h := create_invalidates_before_ack envOK envOK "hi" 0 1 st0 "u1"
    rfl (by decide) rfl rfl rfl rfl (by decide) rfl rfl rfl
    envOK envOK ⟨"c1", "x", "USER"⟩ 0 1 stC2 "u1" Role.USER
    rfl (by decide) rfl rfl rfl rfl (by decide) rfl rfl rfl
  ⟨h.1.2.1, h.1.2.2.1, h.2.2.1, h.2.2.2.1⟩

/-- C2 (amended): the completion pipeline's detached task persists the
accumulated text directly through `db.message.create`, not through the
messages route's write path: exactly one ASSISTANT message is appended, both
cache namespaces are left untouched, and a subsequent ListMessages that finds
a live cache entry for the owner and chat still serves that (possibly
pre-persistence) snapshot. -/
theorem ai_persist_no_cache_invalidation
    (env env2 : Env) (body : AiBody) (fragments : List String) (now now2 : Nat)
    (st : St) (uid uid2 cid : String) (rows : List Message)
    (hrl : env.ratelimitOk = true)
    (hadm : (slidingWindowAdmit 10 10 st.rateW now).1.success = true)
    (hsess : env.session = some uid)
    (hne : (String.join fragments == "") = false)
    (hcache : cacheGet st.messagesCache (messagesCacheKey uid2 cid) now2
        = some rows)
    (hrl2 : env2.ratelimitOk = true)
    (hadm2 : (slidingWindowAdmit 30 10
        ((aiResponsePOST env body fragments now st).2).rateR now2).1.success = true)
    (hsess2 : env2.session = some uid2)
    (hget2 : env2.redisGetOk = true) :
    ((aiResponsePOST env body fragments now st).2).db.messages
        = { id := genId st.nextId, content := String.join fragments,
            role := Role.ASSISTANT, createdAt := now, chatId := body.chatId,
            userId := some uid } :: st.db.messages
    ∧ ((aiResponsePOST env body fragments now st).2).messagesCache
        = st.messagesCache
    ∧ ((aiResponsePOST env body fragments now st).2).chatsCache = st.chatsCache
    ∧ (messagesGET env2 (some cid) now2
          ((aiResponsePOST env body fragments now st).2)).1
        = Outcome.ok (rows, true) := by
  simp only [aiResponsePOST, hrl, hadm, hsess, hne, Bool.not_true, if_false,
    Bool.false_eq_true, ite_false, ite_true] at hadm2 ⊢
  refine ⟨trivial, trivial, trivial, ?_⟩
  simp [messagesGET, hrl2, hadm2, hsess2, hget2, hcache]

/-- C2 witness: in the concrete `stC2` scenario, after the pipeline finishes
with text "Hi" at time 2, the assistant message is in the store, the caches
are as before, and a ListMessages at time 3 serves the cached snapshot. -/
theorem ai_persist_no_cache_invalidation_witness :
    ((aiResponsePOST envOK ⟨"c1", "q"⟩ ["Hi"] 2
          ((messagesGET envOK (some "c1") 1 stC2).2)).2).db.messages
        = aMsgC2 :: ((messagesGET envOK (some "c1") 1 stC2).2).db.messages
    ∧ (messagesGET envOK (some "c1") 3
          ((aiResponsePOST envOK ⟨"c1", "q"⟩ ["Hi"] 2
              ((messagesGET envOK (some "c1") 1 stC2).2)).2)).1
        = Outcome.ok ([mW1], true) :=
  have h := ai_persist_no_cache_invalidation envOK envOK ⟨"c1", "q"⟩ ["Hi"] 2 3
    ((messagesGET envOK (some "c1") 1 stC2).2) "u1" "u1" "c1" [mW1]
    rfl (by decide) rfl (by decide) (by decide) rfl (by decide) rfl rfl
  ⟨h.1, h.2.2.2⟩

/-- C2 counterexample: the claim that the pipeline's persistence goes through
the cache-invalidating write path is false — at this concrete input the
assistant message "Hi" is persisted, yet a ListMessages for the same owner and
chat within the TTL returns the cached pre-persistence snapshot `[mW1]`, which
does not contain it. -/
theorem ai_persist_stale_cache_cex :
    (messagesGET envOK (some "c1") 3
        ((aiResponsePOST envOK ⟨"c1", "q"⟩ ["Hi"] 2
            ((messagesGET envOK (some "c1") 1 stC2).2)).2)).1
      = Outcome.ok ([mW1], true)
    ∧ ((aiResponsePOST envOK ⟨"c1", "q"⟩ ["Hi"] 2
          ((messagesGET envOK (some "c1") 1 stC2).2)).2).db.messages
        = [aMsgC2, mW1]
    ∧ aMsgC2 ∉ [mW1] := ⟨by decide, by decide, by decide⟩

/-- C3 (amended): a failure of the cache store fails the whole read — a
rejecting `redis.get`, or a rejecting `redis.set` after the authoritative
store returned the rows, lands in the route's catch-all and the operation
answers with the opaque 500 server fault instead of the rows. -/
theorem cache_failure_server_fault
    (env : Env) (now : Nat) (st : St) (uid cid : String)
    (hrl : env.ratelimitOk = true)
    (hadm : (slidingWindowAdmit 30 10 st.rateR now).1.success = true)
    (hsess : env.session = some uid) :
    (env.redisGetOk = false →
        (chatGET env now st).1 = Outcome.serverFault "CHAT_GET")
    ∧ (env.redisGetOk = false →
        (messagesGET env (some cid) now st).1 = Outcome.serverFault "MESSAGES_GET")
    ∧ (env.redisGetOk = true → env.redisSetOk = false →
        cacheGet st.chatsCache (chatsCacheKey uid) now = none →
        (chatGET env now st).1 = Outcome.serverFault "CHAT_GET")
    ∧ (env.redisGetOk = true → env.redisSetOk = false →
        cacheGet st.messagesCache (messagesCacheKey uid cid) now = none →
        (messagesGET env (some cid) now st).1 = Outcome.serverFault "MESSAGES_GET") := by
  refine ⟨fun hget => ?_, fun hget => ?_, fun hget hset hmiss => ?_,
    fun hget hset hmiss => ?_⟩
  · simp [chatGET, hrl, hadm, hsess, hget]
  · simp [messagesGET, hrl, hadm, hsess, hget]
  · simp [chatGET, hrl, hadm, hsess, hget, hset, hmiss]
  · simp [messagesGET, hrl, hadm, hsess, hget, hset, hmiss]

/-- C3 witness: at concrete inputs over the populated state `stW`, a failing
get and a failing set each produce the 500 fault on both list routes. -/
theorem cache_failure_server_fault_witness :
    (chatGET envNoGet 0 stW).1 = Outcome.serverFault "CHAT_GET"
    ∧ (messagesGET envNoGet (some "c1") 0 stW).1
        = Outcome.serverFault "MESSAGES_GET"
    ∧ (chatGET envNoSet 0 stW).1 = Outcome.serverFault "CHAT_GET"
    ∧ (messagesGET envNoSet (some "c1") 0 stW).1
        = Outcome.serverFault "MESSAGES_GET" :=
  have h1 := cache_failure_server_fault envNoGet 0 stW "u1" "c1"
    rfl (by decide) rfl
  have h2 := cache_failure_server_fault envNoSet 0 stW "u1" "c1"
    rfl (by decide) rfl
  ⟨h1.1 rfl, h1.2.1 rfl, h2.2.2.1 rfl rfl (by decide), h2.2.2.2 rfl rfl (by decide)⟩

/-- C3 counterexample: with the store holding rows for `u1`, a failing cache
get makes ListChats answer the 500 fault — not the success outcome computed
from the authoritative store, cached or fresh — so a cache failure is not
treated as a miss. -/
theorem cache_failure_fails_read_cex :
    (chatGET envNoGet 0 stW).1 = Outcome.serverFault "CHAT_GET"
    ∧ (chatGET envNoGet 0 stW).1
        ≠ Outcome.ok (sortChatsDesc (stW.db.chats.filter (chatOwnedBy "u1")), false)
    ∧ (chatGET envNoGet 0 stW).1
        ≠ Outcome.ok (sortChatsDesc (stW.db.chats.filter (chatOwnedBy "u1")), true) :=
  ⟨by decide, by decide, by decide⟩

/-- C4: the completion pipeline forwards every fragment to the stream consumer
(the response payload is the fragment list itself); when the accumulated text
is non-empty exactly one ASSISTANT message carrying the full concatenation is
persisted to the given chat, and when it is empty the store is untouched. -/
theorem ai_pipeline_forwards_and_persists
    (env : Env) (body : AiBody) (fragments : List String) (now : Nat) (st : St)
    (uid : String)
    (hrl : env.ratelimitOk = true)
    (hadm : (slidingWindowAdmit 10 10 st.rateW now).1.success = true)
    (hsess : env.session = some uid) :
    (aiResponsePOST env body fragments now st).1 = Outcome.ok fragments
    ∧ ((String.join fragments == "") = false →
        ((aiResponsePOST env body fragments now st).2).db.messages
          = { id := genId st.nextId, content := String.join fragments,
              role := Role.ASSISTANT, createdAt := now, chatId := body.chatId,
              userId := some uid } :: st.db.messages)
    ∧ (String.join fragments = "" →
        ((aiResponsePOST env body fragments now st).2).db = st.db) := by
  refine ⟨?_, fun hne => ?_, fun hz => ?_⟩
  · by_cases hz : (String.join fragments == "") = true
    · simp [aiResponsePOST, hrl, hadm, hsess, hz]
    · simp only [Bool.not_eq_true] at hz
      simp [aiResponsePOST, hrl, hadm, hsess, hz]
  · simp [aiResponsePOST, hrl, hadm, hsess, hne]
  · simp [aiResponsePOST, hrl, hadm, hsess, hz]

/-- C4 witness: fragments ["Hel", "lo"] are both forwarded and exactly one
ASSISTANT message "Hello" is persisted to chat `c1`; an empty fragment list
leaves the store untouched. -/
theorem ai_pipeline_forwards_and_persists_witness :
    (aiResponsePOST envOK ⟨"c1", "q"⟩ ["Hel", "lo"] 4 stC2).1
        = Outcome.ok ["Hel", "lo"]
    ∧ ((aiResponsePOST envOK ⟨"c1", "q"⟩ ["Hel", "lo"] 4 stC2).2).db.messages
        = { id := genId 0, content := "Hello", role := Role.ASSISTANT,
            createdAt := 4, chatId := "c1", userId := some "u1" }
          :: stC2.db.messages
    ∧ (aiResponsePOST envOK ⟨"c1", "q"⟩ [] 4 stC2).1 = Outcome.ok []
    ∧ ((aiResponsePOST envOK ⟨"c1", "q"⟩ [] 4 stC2).2).db = stC2.db :=
  have h1 := ai_pipeline_forwards_and_persists envOK ⟨"c1", "q"⟩ ["Hel", "lo"]
    4 stC2 "u1" rfl (by decide) rfl
  have h2 := ai_pipeline_forwards_and_persists envOK ⟨"c1", "q"⟩ [] 4 stC2 "u1"
    rfl (by decide) rfl
  ⟨h1.1, h1.2.1 (by decide), h2.1, h2.2.2 rfl⟩

/-- C5 (amended): a CreateMessage whose role is outside the USER / ASSISTANT /
SYSTEM enumeration is rejected before the authoritative store is touched, but
the rejection is the catch-all 500 server fault (the ZodError thrown by
`bodySchema.parse` escapes to the route's catch), not a structured validation
outcome. -/
theorem invalid_role_rejected_before_store
    (env : Env) (body : MessageBody) (now : Nat) (st : St) (uid : String)
    (hrl : env.ratelimitOk = true)
    (hadm : (slidingWindowAdmit 10 10 st.rateW now).1.success = true)
    (hsess : env.session = some uid)
    (hrole : parseRole body.role = none) :
    (messagesPOST env body now st).1 = Outcome.serverFault "MESSAGES_POST"
    ∧ ((messagesPOST env body now st).2).db = st.db
    ∧ ((messagesPOST env body now st).2).messagesCache = st.messagesCache := by
  simp [messagesPOST, hrl, hadm, hsess, hrole]

/-- C5 witness: the "MODERATOR" request at a concrete state. -/
theorem invalid_role_rejected_before_store_witness :
    (messagesPOST envOK ⟨"c1", "x", "MODERATOR"⟩ 0 stC2).1
        = Outcome.serverFault "MESSAGES_POST"
    ∧ ((messagesPOST envOK ⟨"c1", "x", "MODERATOR"⟩ 0 stC2).2).db = stC2.db :=
  have h := invalid_role_rejected_before_store envOK ⟨"c1", "x", "MODERATOR"⟩
    0 stC2 "u1" rfl (by decide) rfl rfl
  ⟨h.1, h.2.1⟩

/-- C5 counterexample: with role "MODERATOR" the operation answers the opaque
500 server fault — not a structured validation outcome such as the 400 the
routes use for explicit input checks — though the store is indeed untouched. -/
theorem invalid_role_opaque_fault_cex :
    (messagesPOST envOK ⟨"c1", "x", "MODERATOR"⟩ 0 stC2).1
        = Outcome.serverFault "MESSAGES_POST"
    ∧ (messagesPOST envOK ⟨"c1", "x", "MODERATOR"⟩ 0 stC2).1
        ≠ Outcome.badRequest "Invalid role"
    ∧ ((messagesPOST envOK ⟨"c1", "x", "MODERATOR"⟩ 0 stC2).2).db = stC2.db :=
  ⟨by decide, by decide, by decide⟩

/-- C7 (amended): when the rate limiter's backing store is unreachable the
`limit` call rejects before anything else runs: the guarded delegate is never
executed and the state is completely unchanged (fail-closed in effect), but
the rejection surfaces as the route's opaque 500 server fault, not as a
RateLimited-equivalent outcome. -/
theorem limiter_failure_fail_closed
    (env : Env) (m : Option String) (mb : MessageBody) (ab : AiBody)
    (fragments : List String) (cid : Option String) (now : Nat) (st : St)
    (hrl : env.ratelimitOk = false) :
    chatPOST env m now st = (Outcome.serverFault "CHAT_POST", st)
    ∧ chatGET env now st = (Outcome.serverFault "CHAT_GET", st)
    ∧ messagesPOST env mb now st = (Outcome.serverFault "MESSAGES_POST", st)
    ∧ messagesGET env cid now st = (Outcome.serverFault "MESSAGES_GET", st)
    ∧ aiResponsePOST env ab fragments now st
        = (Outcome.serverFault "AI_RESPONSE_POST", st) := by
  simp [chatPOST, chatGET, messagesPOST, messagesGET, aiResponsePOST, hrl]

/-- C7 witness: all five operations with an unreachable limiter at a concrete
populated state. -/
theorem limiter_failure_fail_closed_witness :
    chatPOST envNoLimiter (some "hi") 0 stW
        = (Outcome.serverFault "CHAT_POST", stW)
    ∧ chatGET envNoLimiter 0 stW = (Outcome.serverFault "CHAT_GET", stW)
    ∧ messagesPOST envNoLimiter ⟨"c1", "x", "USER"⟩ 0 stW
        = (Outcome.serverFault "MESSAGES_POST", stW)
    ∧ messagesGET envNoLimiter (some "c1") 0 stW
        = (Outcome.serverFault "MESSAGES_GET", stW)
    ∧ aiResponsePOST envNoLimiter ⟨"c1", "q"⟩ ["Hi"] 0 stW
        = (Outcome.serverFault "AI_RESPONSE_POST", stW) :=
  limiter_failure_fail_closed envNoLimiter (some "hi") ⟨"c1", "x", "USER"⟩
    ⟨"c1", "q"⟩ ["Hi"] (some "c1") 0 stW rfl

/-- C7 counterexample: with the limiter's backing store unreachable, CreateChat
answers the opaque 500 server fault, not a RateLimited-equivalent outcome
carrying limit / remaining / resetAt. -/
theorem limiter_failure_opaque_fault_cex :
    (chatPOST envNoLimiter (some "hi") 0 stW).1 = Outcome.serverFault "CHAT_POST"
    ∧ (chatPOST envNoLimiter (some "hi") 0 stW).1
        ≠ Outcome.rateLimited 10 0 10
    ∧ (chatPOST envNoLimiter (some "hi") 0 stW).2 = stW :=
  ⟨by decide, by decide, by decide⟩

/-- C6: for a client key, any sequence of at most ten write-class requests
whose timestamps all fall within one trailing 10-unit window (and whose
window is clear of older hits) is fully admitted, and when ten have been
admitted an eleventh request inside the same trailing window is rejected with
`success = false`, `limit = 10`, `remaining = 0` and a reset instant, which
the write routes surface as the 429 outcome carrying those values. -/
theorem write_class_window_admission
    (ts old : List Nat) (tNext : Nat) (env : Env) (m : Option String)
    (mb : MessageBody) (ab : AiBody) (fragments : List String) (st : St)
    (hlen : ts.length ≤ 10)
    (hold : ∀ h ∈ old, ∀ t ∈ ts, h + 10 < t)
    (holdN : ∀ h ∈ old, h + 10 < tNext)
    (hwin : ∀ t ∈ ts, t ≤ tNext ∧ tNext ≤ t + 10)
    (hrl : env.ratelimitOk = true)
    (hst : st.rateW = (admitSeq 10 10 old ts).2) :
    allSuccess (admitSeq 10 10 old ts).1 = true
    ∧ (ts.length = 10 →
        (slidingWindowAdmit 10 10 (admitSeq 10 10 old ts).2 tNext).1
          = { success := false, limit := 10, remaining := 0,
              reset := tNext + 10 }
        ∧ (chatPOST env m tNext st).1 = Outcome.rateLimited 10 0 (tNext + 10)
        ∧ (messagesPOST env mb tNext st).1
            = Outcome.rateLimited 10 0 (tNext + 10)
        ∧ (aiResponsePOST env ab fragments tNext st).1
            = Outcome.rateLimited 10 0 (tNext + 10)) := by
  constructor
  · have h := admitSeq_all_success 10 ts [] old (by simpa using hlen)
      (fun h hh t ht => by
        have hlt := hold h hh t ht
        simp [inWindow]
        omega)
    simpa using h
  · intro hlen10
    have h1 : old.filter (inWindow 10 tNext) = [] := by
      rw [List.filter_eq_nil_iff]
      intro a ha
      have hlt := holdN a ha
      simp [inWindow]
      omega
    have h2 : ts.filter (inWindow 10 tNext) = ts := by
      rw [List.filter_eq_self]
      intro a ha
      have hw := hwin a ha
      simp [inWindow]
      omega
    have hdec : (slidingWindowAdmit 10 10 (admitSeq 10 10 old ts).2 tNext).1
        = { success := false, limit := 10, remaining := 0, reset := tNext + 10 } := by
      rw [admitSeq_snd]
      simp [slidingWindowAdmit, List.filter_append, List.filter_reverse, h1, h2,
        hlen10]
    refine ⟨hdec, ?_, ?_, ?_⟩
    · simp [chatPOST, hrl, hst, hdec]
    · simp [messagesPOST, hrl, hst, hdec]
    · simp [aiResponsePOST, hrl, hst, hdec]

/-- C6 witness: the ten requests at times 0..9 from a fresh key are all
admitted, and the eleventh at time 10 is rejected with remaining 0 — which
CreateChat surfaces as the 429 outcome. -/
theorem write_class_window_admission_witness :
    allSuccess (admitSeq 10 10 [] tenTs).1 = true
    ∧ (slidingWindowAdmit 10 10 (admitSeq 10 10 [] tenTs).2 10).1
        = { success := false, limit := 10, remaining := 0, reset := 20 }
    ∧ (chatPOST envOK (some "hi") 10 stRateFull).1
        = Outcome.rateLimited 10 0 20 :=
  have h := write_class_window_admission tenTs [] 10 envOK (some "hi")
    ⟨"c1", "x", "USER"⟩ ⟨"c1", "q"⟩ ["Hi"] stRateFull
    (by decide) (by intro a ha; exact absurd ha (List.not_mem_nil a))
    (by intro a ha; exact absurd ha (List.not_mem_nil a)) (by decide) rfl rfl
  ⟨h.1, (h.2 (by decide)).1, (h.2 (by decide)).2.1⟩

/-- C8: on a cache miss, ListChats answers the owner's chats sorted by
creation time descending (a permutation of the owner's rows, pairwise in
descending order) and ListMessages answers the chat's messages sorted by
creation time ascending; in particular when the chat's rows are exactly three
messages with timestamps t1 < t2 < t3, ListMessages returns them in exactly
that order no matter the order the creation calls interleaved in. -/
theorem list_ordering_on_miss
    (env envM : Env) (now nowM : Nat) (st : St) (uid uidM cid : String)
    (m1 m2 m3 : Message)
    (hrl : env.ratelimitOk = true)
    (hadm : (slidingWindowAdmit 30 10 st.rateR now).1.success = true)
    (hsess : env.session = some uid)
    (hget : env.redisGetOk = true) (hset : env.redisSetOk = true)
    (hmiss : cacheGet st.chatsCache (chatsCacheKey uid) now = none)
    (hrlM : envM.ratelimitOk = true)
    (hadmM : (slidingWindowAdmit 30 10 st.rateR nowM).1.success = true)
    (hsessM : envM.session = some uidM)
    (hgetM : envM.redisGetOk = true) (hsetM : envM.redisSetOk = true)
    (hmissM : cacheGet st.messagesCache (messagesCacheKey uidM cid) nowM = none)
    (hperm : (st.db.messages.filter (msgInChat cid)).Perm [m1, m2, m3])
    (h12 : m1.createdAt < m2.createdAt) (h23 : m2.createdAt < m3.createdAt) :
    (chatGET env now st).1
        = Outcome.ok (sortChatsDesc (st.db.chats.filter (chatOwnedBy uid)), false)
    ∧ List.Sorted chatGe (sortChatsDesc (st.db.chats.filter (chatOwnedBy uid)))
    ∧ (sortChatsDesc (st.db.chats.filter (chatOwnedBy uid))).Perm
        (st.db.chats.filter (chatOwnedBy uid))
    ∧ List.Sorted msgLe (sortMessagesAsc (st.db.messages.filter (msgInChat cid)))
    ∧ (messagesGET envM (some cid) nowM st).1 = Outcome.ok ([m1, m2, m3], false) := by
  refine ⟨?_, List.sorted_insertionSort chatGe _, List.perm_insertionSort chatGe _,
    List.sorted_insertionSort msgLe _, ?_⟩
  · simp [chatGET, hrl, hadm, hsess, hget, hset, hmiss]
  · have hsorted := sortMessagesAsc_three _ m1 m2 m3 hperm h12 h23
    simp [messagesGET, hrlM, hadmM, hsessM, hgetM, hsetM, hmissM, hsorted]

/-- C8 witness: over `stW` (two chats of `u1` created at times 0 and 5; the
three messages of `c1` created at times 1, 2, 3 but stored in scrambled
order), a fresh ListChats answers the descending sort and a fresh ListMessages
answers exactly `[mW1, mW2, mW3]`. -/
theorem list_ordering_on_miss_witness :
    (chatGET envOK 0 stW).1
        = Outcome.ok (sortChatsDesc (stW.db.chats.filter (chatOwnedBy "u1")), false)
    ∧ List.Sorted chatGe (sortChatsDesc (stW.db.chats.filter (chatOwnedBy "u1")))
    ∧ (messagesGET envOK (some "c1") 0 stW).1
        = Outcome.ok ([mW1, mW2, mW3], false) :=
  have h := list_ordering_on_miss envOK envOK 0 0 stW "u1" "u1" "c1" mW1 mW2 mW3
    rfl (by decide) rfl rfl rfl (by decide) rfl (by decide) rfl rfl rfl
    (by decide) (by decide) (by decide) (by decide)
  ⟨h.1, h.2.1, h.2.2.2.2⟩

/-- C9: two back-to-back list calls with no intervening write return identical
payloads: the first, on a miss, answers the fresh store rows with
`cached = false` and populates the cache entry with TTL 300; the second,
issued before that TTL elapses, answers the very same rows with
`cached = true` — the round trip through the cache entry preserves the
payload.  Both ListChats and ListMessages are covered. -/
theorem list_idempotent_cache_population
    (env1 env2 env3 env4 : Env) (n1 n2 n3 n4 : Nat) (st : St)
    (uid uidM cid : String)
    (hrl1 : env1.ratelimitOk = true)
    (hadm1 : (slidingWindowAdmit 30 10 st.rateR n1).1.success = true)
    (hsess1 : env1.session = some uid)
    (hget1 : env1.redisGetOk = true) (hset1 : env1.redisSetOk = true)
    (hmiss1 : cacheGet st.chatsCache (chatsCacheKey uid) n1 = none)
    (hrl2 : env2.ratelimitOk = true)
    (hadm2 : (slidingWindowAdmit 30 10 ((chatGET env1 n1 st).2).rateR n2).1.success
        = true)
    (hsess2 : env2.session = some uid)
    (hget2 : env2.redisGetOk = true)
    (ht2 : n2 < n1 + 300)
    (hrl3 : env3.ratelimitOk = true)
    (hadm3 : (slidingWindowAdmit 30 10 st.rateR n3).1.success = true)
    (hsess3 : env3.session = some uidM)
    (hget3 : env3.redisGetOk = true) (hset3 : env3.redisSetOk = true)
    (hmiss3 : cacheGet st.messagesCache (messagesCacheKey uidM cid) n3 = none)
    (hrl4 : env4.ratelimitOk = true)
    (hadm4 : (slidingWindowAdmit 30 10
        ((messagesGET env3 (some cid) n3 st).2).rateR n4).1.success = true)
    (hsess4 : env4.session = some uidM)
    (hget4 : env4.redisGetOk = true)
    (ht4 : n4 < n3 + 300) :
    (chatGET env1 n1 st).1
        = Outcome.ok (sortChatsDesc (st.db.chats.filter (chatOwnedBy uid)), false)
    ∧ ((chatGET env1 n1 st).2).chatsCache
        = cacheSet st.chatsCache (chatsCacheKey uid)
            (sortChatsDesc (st.db.chats.filter (chatOwnedBy uid))) 300 n1
    ∧ (chatGET env2 n2 ((chatGET env1 n1 st).2)).1
        = Outcome.ok (sortChatsDesc (st.db.chats.filter (chatOwnedBy uid)), true)
    ∧ (messagesGET env3 (some cid) n3 st).1
        = Outcome.ok
            (sortMessagesAsc (st.db.messages.filter (msgInChat cid)), false)
    ∧ ((messagesGET env3 (some cid) n3 st).2).messagesCache
        = cacheSet st.messagesCache (messagesCacheKey uidM cid)
            (sortMessagesAsc (st.db.messages.filter (msgInChat cid))) 300 n3
    ∧ (messagesGET env4 (some cid) n4 ((messagesGET env3 (some cid) n3 st).2)).1
        = Outcome.ok
            (sortMessagesAsc (st.db.messages.filter (msgInChat cid)), true) := by
  have hhit2 := cacheGet_cacheSet_self st.chatsCache (chatsCacheKey uid)
    (sortChatsDesc (st.db.chats.filter (chatOwnedBy uid))) 300 n1 n2 ht2
  have hhit4 := cacheGet_cacheSet_self st.messagesCache (messagesCacheKey uidM cid)
    (sortMessagesAsc (st.db.messages.filter (msgInChat cid))) 300 n3 n4 ht4
  simp only [chatGET, messagesGET, hrl1, hadm1, hsess1, hget1, hset1, hmiss1,
    hrl3, hadm3, hsess3, hget3, hset3, hmiss3, Bool.not_true, if_false,
    Bool.false_eq_true, ite_false, ite_true] at hadm2 hadm4 ⊢
  refine ⟨trivial, trivial, ?_, trivial, trivial, ?_⟩
  · simp [chatGET, hrl2, hadm2, hsess2, hget2, hhit2]
  · simp [messagesGET, hrl4, hadm4, hsess4, hget4, hhit4]

/-- C9 witness: back-to-back ListChats at times 0 and 1 and back-to-back
ListMessages at times 0 and 1 over the populated state `stW`: identical
payloads, first `cached = false` with a TTL-300 entry, then `cached = true`. -/
theorem list_idempotent_cache_population_witness :
    (chatGET envOK 0 stW).1
        = Outcome.ok (sortChatsDesc (stW.db.chats.filter (chatOwnedBy "u1")), false)
    ∧ (chatGET envOK 1 ((chatGET envOK 0 stW).2)).1
        = Outcome.ok (sortChatsDesc (stW.db.chats.filter (chatOwnedBy "u1")), true)
    ∧ (messagesGET envOK (some "c1") 0 stW).1
        = Outcome.ok
            (sortMessagesAsc (stW.db.messages.filter (msgInChat "c1")), false)
    ∧ (messagesGET envOK (some "c1") 1 ((messagesGET envOK (some "c1") 0 stW).2)).1
        = Outcome.ok
            (sortMessagesAsc (stW.db.messages.filter (msgInChat "c1")), true) :=
  have h := list_idempotent_cache_population envOK envOK envOK envOK 0 1 0 1 stW
    "u1" "u1" "c1" rfl (by decide) rfl rfl rfl (by decide) rfl (by decide) rfl
    rfl (by decide) rfl (by decide) rfl rfl rfl (by decide) rfl (by decide) rfl
    rfl (by decide)
  ⟨h.1, h.2.2.1, h.2.2.2.1, h.2.2.2.2.2⟩

/-- C10: neither ListMessages nor CreateMessage checks that the chat belongs
to the calling principal.  The store query filters by chat id only, so two
authenticated principals issuing a fresh (non-cached) ListMessages for the
same chat receive the identical message sequence; and CreateMessage appends a
message to the chat even when every row of the chat in the store names a
different owner than the caller. -/
theorem no_ownership_check
    (envA envB envC : Env) (nA nB nC : Nat) (st : St) (uidA uidB cid : String)
    (mb : MessageBody) (role : Role)
    (_hneq : uidA ≠ uidB)
    (_hownerA : ∀ c ∈ st.db.chats, c.id = cid → c.userId = uidA)
    (hrlA : envA.ratelimitOk = true)
    (hadmA : (slidingWindowAdmit 30 10 st.rateR nA).1.success = true)
    (hsessA : envA.session = some uidA)
    (hgetA : envA.redisGetOk = true) (hsetA : envA.redisSetOk = true)
    (hmissA : cacheGet st.messagesCache (messagesCacheKey uidA cid) nA = none)
    (hrlB : envB.ratelimitOk = true)
    (hadmB : (slidingWindowAdmit 30 10 st.rateR nB).1.success = true)
    (hsessB : envB.session = some uidB)
    (hgetB : envB.redisGetOk = true) (hsetB : envB.redisSetOk = true)
    (hmissB : cacheGet st.messagesCache (messagesCacheKey uidB cid) nB = none)
    (hrlC : envC.ratelimitOk = true)
    (hadmC : (slidingWindowAdmit 10 10 st.rateW nC).1.success = true)
    (hsessC : envC.session = some uidB)
    (hroleC : parseRole mb.role = some role)
    (hdelC : envC.redisDelOk = true)
    (hcid : mb.chatId = cid) :
    (messagesGET envA (some cid) nA st).1
        = Outcome.ok (sortMessagesAsc (st.db.messages.filter (msgInChat cid)), false)
    ∧ (messagesGET envB (some cid) nB st).1
        = Outcome.ok (sortMessagesAsc (st.db.messages.filter (msgInChat cid)), false)
    ∧ (messagesGET envA (some cid) nA st).1 = (messagesGET envB (some cid) nB st).1
    ∧ (messagesPOST envC mb nC st).1
        = Outcome.ok
            { id := genId st.nextId, content := mb.content, role := role,
              createdAt := nC, chatId := cid, userId := some uidB }
    ∧ ({ id := genId st.nextId, content := mb.content, role := role,
         createdAt := nC, chatId := cid, userId := some uidB } : Message)
        ∈ ((messagesPOST envC mb nC st).2).db.messages := by
  have hA : (messagesGET envA (some cid) nA st).1
      = Outcome.ok (sortMessagesAsc (st.db.messages.filter (msgInChat cid)), false) := by
    simp [messagesGET, hrlA, hadmA, hsessA, hgetA, hsetA, hmissA]
  have hB : (messagesGET envB (some cid) nB st).1
      = Outcome.ok (sortMessagesAsc (st.db.messages.filter (msgInChat cid)), false) := by
    simp [messagesGET, hrlB, hadmB, hsessB, hgetB, hsetB, hmissB]
  refine ⟨hA, hB, hA.trans hB.symm, ?_, ?_⟩
  · simp [messagesPOST, hrlC, hadmC, hsessC, hroleC, hdelC, hcid]
  · simp [messagesPOST, hrlC, hadmC, hsessC, hroleC, hdelC, hcid]

/-- C10 witness: in `stW` the only chat with id `c1` is owned by `u1`, yet a
fresh ListMessages for `c1` gives `u2` the same payload as `u1`, and `u2` can
append a message to `c1`. -/
theorem no_ownership_check_witness :
    (messagesGET envOK (some "c1") 0 stW).1
        = (messagesGET envU2 (some "c1") 0 stW).1
    ∧ (messagesPOST envU2 ⟨"c1", "intruding", "USER"⟩ 0 stW).1
        = Outcome.ok
            { id := genId stW.nextId, content := "intruding", role := Role.USER,
              createdAt := 0, chatId := "c1", userId := some "u2" } :=
  have h := no_ownership_check envOK envU2 envU2 0 0 0 stW "u1" "u2" "c1"
    ⟨"c1", "intruding", "USER"⟩ Role.USER (by decide) (by decide)
    rfl (by decide) rfl rfl rfl (by decide)
    rfl (by decide) rfl rfl rfl (by decide)
    rfl (by decide) rfl rfl rfl rfl
  ⟨h.2.2.1, h.2.2.2.1⟩
